import Mathlib

/-!
Verification development for the PDF metadata viewer
(`src/components/PDFMetadataViewer.tsx` and `src/components/PasswordDialog.tsx`).

The component's pure logic is embedded shallowly:
* JS strings are `String` (file contents are modelled as their decoded text,
  which is all the component ever inspects — only ASCII marker substrings matter);
* `String.prototype.includes` and the regex searches are implemented as
  executable functions over `List Char`;
* the React state (`metadata`, `isLoading`, `error`, `currentFile`,
  `showPasswordDialog`, `passwordError`, `attempts`) is a `ViewerState`
  record, and `extractMetadata` becomes a pure transition function
  parametrised by the outcomes of the two asynchronous calls
  (`file.arrayBuffer()` and `pdfjsLib.getDocument`), which are external;
* `Date.toLocaleString` rendering of a matched PDF date is abstracted as a
  renderer argument `rd : DateParts → String` — the viewer's logic never
  inspects the rendered text.
-/

namespace PDFMetadataViewer

/-- `startsWithL l pat` is true iff `pat` is an initial segment of `l`. -/
def startsWithL : List Char → List Char → Bool
  | _, [] => true
  | [], _ :: _ => false
  | c :: cs, d :: ds => c == d && startsWithL cs ds

/-- Substring occurrence on char lists, modelling `String.prototype.includes`. -/
def containsL (l pat : List Char) : Bool :=
  match l with
  | [] => startsWithL [] pat
  | _ :: rest => startsWithL l pat || containsL rest pat

/-- `s.includes(sub)` from JS. -/
def includes (s sub : String) : Bool := containsL s.data sub.data

/-- The digits-dot-digits tail of the version regex `/%PDF-(\d+\.\d+)/`:
given the text following a `%PDF-` marker, return the capture if it starts
with `\d+\.\d+`. -/
def versionAfterMarker (l : List Char) : Option String :=
  match l.span Char.isDigit with
  | (d1, rest) =>
    match d1, rest with
    | [], _ => none
    | _ :: _, '.' :: r2 =>
      match r2.takeWhile Char.isDigit with
      | [] => none
      | d2 => some (String.mk (d1 ++ '.' :: d2))
    | _ :: _, _ => none

/-- Leftmost match of `/%PDF-(\d+\.\d+)/`, returning capture group 1
(`header.match(/%PDF-(\d+\.\d+)/)?.[1]` in the source). -/
def findVersion (l : List Char) : Option String :=
  match l with
  | [] => none
  | _ :: rest =>
    match (if startsWithL l ("%PDF-".data) then versionAfterMarker (l.drop 5) else none) with
    | some v => some v
    | none => findVersion rest

/-- Result of the header probe: `isPDF` flag and optional version capture. -/
structure HeaderResult where
  isPDF : Bool
  version : Option String
deriving DecidableEq, Repr

/-- The header probe of `extractMetadata` (lines 101–103 of the source):
decode the first 8 bytes, test `header.includes("%PDF")`, and extract the
version capture when the flag is set. -/
def detectPDFHeader (bytes : String) : HeaderResult :=
  { isPDF := includes (String.mk (bytes.data.take 8)) "%PDF"
    version :=
      if includes (String.mk (bytes.data.take 8)) "%PDF"
      then findVersion (bytes.data.take 8)
      else none }

/-- `Math.floor(Math.log(bytes) / Math.log(1024))` of `formatFileSize`,
embedded as the exact floor of the base-1024 logarithm. -/
def sizeIndex (bytes : Nat) : Nat := Nat.log 1024 bytes

/-- `${parseFloat((num / den).toFixed(2))}` for an exact rational `num / den`:
round to 2 decimal places (ties away from zero, as `toFixed` specifies) and
drop trailing fractional zeros (as `parseFloat` plus template rendering do). -/
def toFixed2Trim (num den : Nat) : String :=
  let r := (200 * num + den) / (2 * den)
  let ip := r / 100
  let fr := r % 100
  if fr = 0 then toString ip
  else if fr % 10 = 0 then toString ip ++ "." ++ toString (fr / 10)
  else if fr < 10 then toString ip ++ ".0" ++ toString fr
  else toString ip ++ "." ++ toString fr

/-- `formatFileSize` (source lines 48–54).  An index past the unit table
renders as the string `"undefined"`, exactly as the JS template literal
renders `sizes[i]` for `i ≥ 4`. -/
def formatFileSize (bytes : Nat) : String :=
  if bytes = 0 then "0 Bytes"
  else toFixed2Trim bytes (1024 ^ sizeIndex bytes) ++ " " ++
    (["Bytes", "KB", "MB", "GB"].getD (sizeIndex bytes) "undefined")

/-- The seven capture groups of the PDF date regex
`/D:(\d{4})(\d{2})(\d{2})(\d{2})(\d{2})(\d{2})([-+]\d{2}'\d{2}')?/`. -/
structure DateParts where
  year : String
  month : String
  day : String
  hour : String
  minute : String
  second : String
  timezone : Option String
deriving DecidableEq, Repr

/-- Try the date regex anchored at the head of `l`: `D:` followed by 14
digits, with an optional `[-+]\d{2}'\d{2}'` timezone group. -/
def tryDateAt (l : List Char) : Option DateParts :=
  match l with
  | 'D' :: ':' :: rest =>
    let ds := rest.take 14
    if ds.length == 14 && ds.all Char.isDigit then
      let after := rest.drop 14
      let tz : Option String :=
        match after with
        | s :: d1 :: d2 :: q1 :: d3 :: d4 :: q2 :: _ =>
          if (s == '+' || s == '-') && d1.isDigit && d2.isDigit &&
             q1 == Char.ofNat 39 && d3.isDigit && d4.isDigit && q2 == Char.ofNat 39
          then some (String.mk [s, d1, d2, q1, d3, d4, q2])
          else none
        | _ => none
      some { year := String.mk (ds.take 4)
             month := String.mk ((ds.drop 4).take 2)
             day := String.mk ((ds.drop 6).take 2)
             hour := String.mk ((ds.drop 8).take 2)
             minute := String.mk ((ds.drop 10).take 2)
             second := String.mk ((ds.drop 12).take 2)
             timezone := tz }
    else none
  | _ => none

/-- Leftmost match of the PDF date regex anywhere in the input
(`dateStr.match(...)` searches, it is not anchored). -/
def findPDFDate (l : List Char) : Option DateParts :=
  match l with
  | [] => none
  | _ :: rest =>
    match tryDateAt l with
    | some p => some p
    | none => findPDFDate rest

/-- `formatPDFDate` (source lines 56–70): on a match, build a `Date` and
render it in the viewer's locale (abstracted as `rd`); otherwise return the
input unchanged. -/
def formatPDFDate (rd : DateParts → String) (s : String) : String :=
  match findPDFDate s.data with
  | some p => rd p
  | none => s

/-- The `File` object as the component uses it: platform attributes plus the
decoded text of its bytes (`new TextDecoder().decode(uint8Array)`). -/
structure FileModel where
  name : String
  size : Nat
  type : String
  lastModifiedStr : String
  bytes : String
deriving DecidableEq, Repr

/-- The `PDFMetadata` record of the source.  `infoDict` is an ordered
string-keyed mapping, like a JS object with string values. -/
structure PDFMetadata where
  fileName : String
  fileSize : String
  fileType : String
  isPDF : Bool
  pdfVersion : Option String
  infoDict : List (String × String)
deriving DecidableEq, Repr

/-- JS object property write `d[k] = v`: overwrite the existing entry for
`k` in place, or append a new one. -/
def setKey : List (String × String) → String → String → List (String × String)
  | [], k, v => [(k, v)]
  | (a, b) :: t, k, v => if a = k then (k, v) :: t else (a, b) :: setKey t k v

/-- JS object property read `d[k]`. -/
def getKey : List (String × String) → String → Option String
  | [], _ => none
  | (a, b) :: t, k => if a = k then some b else getKey t k

/-- The outcome of `await file.arrayBuffer()`: the read either succeeds or
throws an error carrying a message. -/
inductive ReadResult where
  | ok
  | failure (msg : String)
deriving DecidableEq, Repr

/-- The outcome of `pdfjsLib.getDocument(...).promise` (plus `getMetadata`
and `numPages` on success): success with a string-valued info mapping and a
page count, a `PasswordException`, or any other error whose `message`
property may be missing or empty. -/
inductive LibResult where
  | success (info : List (String × String)) (numPages : Nat)
  | passwordError
  | otherError (msg : Option String)
deriving DecidableEq, Repr

/-- `err.message || "Unknown error"`: a missing or empty message is
replaced by `"Unknown error"`. -/
def msgOrUnknown : Option String → String
  | none => "Unknown error"
  | some m => if m = "" then "Unknown error" else m

/-- JS truthiness of the optional `password` argument: `undefined` and the
empty string are falsy. -/
def passwordTruthy : Option String → Bool
  | none => false
  | some s => !(s == "")

/-- The React state of `PDFMetadataViewer` (source lines 40–46). -/
structure ViewerState where
  metadata : Option PDFMetadata
  isLoading : Bool
  error : Option String
  currentFile : Option FileModel
  showPasswordDialog : Bool
  passwordError : Option String
  attempts : Nat
deriving DecidableEq, Repr

/-- Initial `useState` values. -/
def initialState : ViewerState :=
  { metadata := none, isLoading := false, error := none, currentFile := none
    showPasswordDialog := false, passwordError := none, attempts := 0 }

/-- One info-dictionary write of the `Object.entries(metadata.info).forEach`
loop (source lines 125–139): `CreationDate` and `ModDate` are reformatted
with an explanatory suffix, any other key is copied verbatim. -/
def applyInfoEntry (rd : DateParts → String) (d : List (String × String))
    (kv : String × String) : List (String × String) :=
  if kv.1 = "CreationDate" then
    setKey d kv.1 (formatPDFDate rd kv.2 ++ " (when the PDF was first created)")
  else if kv.1 = "ModDate" then
    setKey d kv.1 (formatPDFDate rd kv.2 ++ " (when the PDF content was last modified)")
  else setKey d kv.1 kv.2

/-- The info dictionary assembled on the success path (source lines
105–154): seeded with "Last Modified", merged with the library's info
entries, then "Page Count", "Security Status" and "Accessibility". -/
def buildInfoDict (rd : DateParts → String) (file : FileModel)
    (info : List (String × String)) (numPages : Nat) : List (String × String) :=
  setKey
    (setKey
      (setKey
        (info.foldl (applyInfoEntry rd)
          [("Last Modified",
            file.lastModifiedStr ++ " (last time the file was saved or moved on your computer)")])
        "Page Count" (toString numPages ++ " pages"))
      "Security Status"
      (if includes file.bytes "/Encrypt"
       then "Encrypted (this PDF has security restrictions)"
       else "Not Encrypted (this PDF has no security restrictions)"))
    "Accessibility"
    (if includes file.bytes "/MarkInfo"
     then "Tagged PDF (accessible for screen readers)"
     else "Not Tagged (limited accessibility support)")

/-- The `PDFMetadata` value assembled on the success path (source lines
94–161). -/
def successMetadata (rd : DateParts → String) (file : FileModel)
    (info : List (String × String)) (numPages : Nat) : PDFMetadata :=
  { fileName := file.name
    fileSize := formatFileSize file.size
    fileType := file.type
    isPDF := (detectPDFHeader file.bytes).isPDF
    pdfVersion := (detectPDFHeader file.bytes).version
    infoDict := buildInfoDict rd file info numPages }

/-- `extractMetadata(file, password)` (source lines 72–200) as a pure state
transition, parametrised by the outcomes of the byte read and of the
library call.  The branches mirror the source:
* a read failure reaches the outer catch — with a truthy password the
  message lands in `passwordError`, otherwise the top-level `error` becomes
  `"Error processing file: <message>"`;
* bytes containing `/Encrypt` with no (truthy) password: store the file as
  pending, show the dialog, stop with no error;
* library success: build the result, clear the retry state;
* `PasswordException` with a truthy password: bump `attempts`, throw
  `"Invalid password. Please try again."`, which the outer catch routes to
  `passwordError`; without a truthy password, prompt as in the second case;
* any other library error is wrapped as `"Error processing PDF: <msg>"`,
  rethrown, and the outer catch either routes it to `passwordError` (truthy
  password) or wraps it once more into
  `"Error processing file: Error processing PDF: <msg>"` on `error`. -/
def extractMetadata (rd : DateParts → String) (st : ViewerState) (file : FileModel)
    (password : Option String) (readR : ReadResult) (libR : LibResult) : ViewerState :=
  match readR with
  | .failure msg =>
    if passwordTruthy password then
      { st with isLoading := false, error := none, passwordError := some msg }
    else
      { st with isLoading := false, error := some ("Error processing file: " ++ msg) }
  | .ok =>
    if includes file.bytes "/Encrypt" && !passwordTruthy password then
      { st with isLoading := false, error := none
                currentFile := some file, showPasswordDialog := true }
    else
      match libR with
      | .success info numPages =>
        { st with isLoading := false, error := none
                  metadata := some (successMetadata rd file info numPages)
                  showPasswordDialog := false, currentFile := none
                  passwordError := none, attempts := 0 }
      | .passwordError =>
        if passwordTruthy password then
          { st with isLoading := false, error := none
                    attempts := st.attempts + 1
                    passwordError := some "Invalid password. Please try again." }
        else
          { st with isLoading := false, error := none
                    currentFile := some file, showPasswordDialog := true }
      | .otherError msg =>
        if passwordTruthy password then
          { st with isLoading := false, error := none
                    passwordError := some ("Error processing PDF: " ++ msgOrUnknown msg) }
        else
          { st with isLoading := false
                    error := some ("Error processing file: Error processing PDF: " ++ msgOrUnknown msg) }

/-- The password dialog's `onClose` handler (source lines 318–323). -/
def cancelDialog (st : ViewerState) : ViewerState :=
  { st with showPasswordDialog := false, currentFile := none
            passwordError := none, attempts := 0 }

/-- States of the viewer reachable from the initial render through the
observable operations: running `extractMetadata` (with any file, password
and asynchronous outcomes) and cancelling the password dialog. -/
inductive Reachable (rd : DateParts → String) : ViewerState → Prop where
  | init : Reachable rd initialState
  | extract {st : ViewerState} (file : FileModel) (pw : Option String)
      (readR : ReadResult) (libR : LibResult) :
      Reachable rd st → Reachable rd (extractMetadata rd st file pw readR libR)
  | cancel {st : ViewerState} :
      Reachable rd st → Reachable rd (cancelDialog st)

/-- Whether a library outcome is a successful parse. -/
def isSuccess : LibResult → Bool
  | .success _ _ => true
  | _ => false

/-- Reachability restricted to runs in which the parsing library never
reports success (no extraction ever succeeds). -/
inductive ReachableNS (rd : DateParts → String) : ViewerState → Prop where
  | init : ReachableNS rd initialState
  | extract {st : ViewerState} (file : FileModel) (pw : Option String)
      (readR : ReadResult) (libR : LibResult) :
      isSuccess libR = false →
      ReachableNS rd st → ReachableNS rd (extractMetadata rd st file pw readR libR)
  | cancel {st : ViewerState} :
      ReachableNS rd st → ReachableNS rd (cancelDialog st)

/-- The local state of `PasswordDialog` (source lines 346–348). -/
structure DialogState where
  password : String
  showPassword : Bool
  isSubmitting : Bool
deriving DecidableEq, Repr

/-- The submit button's enabled condition: it is rendered with
`disabled={!password || isSubmitting}` (source line 412), and a disabled
default button also blocks the form's implicit (Enter-key) submission. -/
def submitEnabled (d : DialogState) : Bool :=
  !(d.password == "") && !d.isSubmitting

/-- The dialog's user-visible events: typing into the password field,
toggling visibility, activating submit, and completion of an in-flight
submission (the `finally` of `handleSubmit`, source lines 352–361). -/
inductive DialogEvent where
  | setPassword (s : String)
  | toggleShow
  | submitClick
  | submitDone
deriving DecidableEq, Repr

/-- One dialog transition; the second component is the password handed to
`onSubmit` when a submission fires.  `submitClick` fires only when the
submit button is enabled. -/
def dialogStep : DialogState → DialogEvent → DialogState × Option String
  | d, .setPassword s => ({ d with password := s }, none)
  | d, .toggleShow => ({ d with showPassword := !d.showPassword }, none)
  | d, .submitClick =>
    if submitEnabled d then ({ d with isSubmitting := true }, some d.password)
    else (d, none)
  | d, .submitDone => ({ d with password := "", isSubmitting := false }, none)

/-! ### Helper lemmas -/

theorem startsWithL_length {l pat : List Char} (h : startsWithL l pat = true) :
    pat.length ≤ l.length := by
  induction pat generalizing l with
  | nil => exact Nat.zero_le _
  | cons d ds ih =>
    cases l with
    | nil => simp [startsWithL] at h
    | cons c cs =>
      simp only [startsWithL, Bool.and_eq_true] at h
      simpa using ih h.2

theorem startsWithL_eq {l pat : List Char} (h : startsWithL l pat = true)
    (hl : l.length ≤ pat.length) : l = pat := by
  induction pat generalizing l with
  | nil =>
    cases l with
    | nil => rfl
    | cons c cs => simp at hl
  | cons d ds ih =>
    cases l with
    | nil => simp [startsWithL] at h
    | cons c cs =>
      simp only [startsWithL, Bool.and_eq_true, beq_iff_eq] at h
      simp only [List.length_cons, Nat.succ_le_succ_iff] at hl
      exact h.1 ▸ congrArg _ (ih h.2 hl)

theorem containsL_length {l pat : List Char} (h : containsL l pat = true) :
    pat.length ≤ l.length := by
  induction l with
  | nil =>
    simp only [containsL] at h
    cases pat with
    | nil => simp
    | cons d ds => simp [startsWithL] at h
  | cons c cs ih =>
    simp only [containsL, Bool.or_eq_true] at h
    rcases h with h | h
    · exact startsWithL_length h
    · exact Nat.le_succ_of_le (ih h)

theorem containsL_eq {l pat : List Char} (h : containsL l pat = true)
    (hl : l.length ≤ pat.length) : l = pat := by
  cases l with
  | nil =>
    simp only [containsL] at h
    cases pat with
    | nil => rfl
    | cons d ds => simp [startsWithL] at h
  | cons c cs =>
    simp only [containsL, Bool.or_eq_true] at h
    rcases h with h | h
    · exact startsWithL_eq h hl
    · have := containsL_length h
      simp only [List.length_cons] at hl
      omega

theorem getKey_setKey_self (d : List (String × String)) (k v : String) :
    getKey (setKey d k v) k = some v := by
  induction d with
  | nil => simp [setKey, getKey]
  | cons p t ih =>
    by_cases h : p.1 = k
    · simp [setKey, getKey, h]
    · simp [setKey, getKey, h, ih]

theorem getKey_setKey_ne (d : List (String × String)) (k k' v : String)
    (h : k' ≠ k) : getKey (setKey d k' v) k = getKey d k := by
  induction d with
  | nil => simp [setKey, getKey, h]
  | cons p t ih =>
    by_cases hp : p.1 = k'
    · simp [setKey, getKey, hp, h, ih]
    · by_cases hk : p.1 = k <;> simp [setKey, getKey, hp, hk, ih, Ne.symm h]

/-! ### Concrete fixtures used in witnesses and counterexamples -/

/-- A concrete locale renderer. -/
def rd0 : DateParts → String := fun _ => "(locale date)"

/-- A plain unencrypted PDF file. -/
def filePlain : FileModel :=
  { name := "plain.pdf", size := 3, type := "application/pdf"
    lastModifiedStr := "lm", bytes := "%PDF-1.4 x" }

/-- An encrypted PDF file (bytes contain `/Encrypt`). -/
def fileEnc : FileModel :=
  { name := "locked.pdf", size := 3, type := "application/pdf"
    lastModifiedStr := "lm", bytes := "%PDF-1.4 /Encrypt" }

/-- A PDF file whose bytes contain both `/Encrypt` and `/MarkInfo`. -/
def fileBoth : FileModel :=
  { name := "both.pdf", size := 1, type := "application/pdf"
    lastModifiedStr := "lm", bytes := "%PDF-1.4 /Encrypt /MarkInfo" }

/-! ### Claims -/

/-- C5 (counterexample): the claim says every byte buffer not starting with
`%PDF` yields `isPDF = false`, but the code tests `header.includes("%PDF")`
on the first 8 bytes: the buffer `"x%PDF-12"` does not start with `%PDF`
yet `detectPDFHeader` reports `isPDF = true`. -/
theorem c5_counterexample :
    startsWithL ("x%PDF-12".data) ("%PDF".data) = false ∧
    (detectPDFHeader "x%PDF-12").isPDF = true := by
  constructor <;> decide

/-- C5 (amended): if the first 8 decoded bytes contain `%PDF-1.7` then
`detectPDFHeader` returns `isPDF = true` and `version = "1.7"`; if the
first 8 decoded bytes do not contain `%PDF` then it returns
`isPDF = false` and no version. -/
theorem c5_header_detection :
    (∀ bytes : String, includes (String.mk (bytes.data.take 8)) "%PDF-1.7" = true →
      detectPDFHeader bytes = ⟨true, some "1.7"⟩) ∧
    (∀ bytes : String, includes (String.mk (bytes.data.take 8)) "%PDF" = false →
      detectPDFHeader bytes = ⟨false, none⟩) := by
  constructor
  · intro bytes h
    have h' : containsL (bytes.data.take 8) ("%PDF-1.7".data) = true := h
    have hl : (bytes.data.take 8).length ≤ ("%PDF-1.7".data).length := by
      have h8 : ("%PDF-1.7".data).length = 8 := rfl
      rw [h8]
      exact List.length_take_le 8 bytes.data
    have heq : bytes.data.take 8 = "%PDF-1.7".data := containsL_eq h' hl
    simp only [detectPDFHeader, includes]
    rw [heq]
    decide
  · intro bytes h
    simp [detectPDFHeader, h]

/-- C5 (witness): concrete applications of the amended theorem. -/
theorem c5_witness :
    detectPDFHeader "%PDF-1.7junk" = ⟨true, some "1.7"⟩ ∧
    detectPDFHeader "hello world" = ⟨false, none⟩ :=
  ⟨c5_header_detection.1 "%PDF-1.7junk" (by decide),
   c5_header_detection.2 "hello world" (by decide)⟩

/-- C9: `formatPDFDate` is total and fails open — whenever the date regex
finds no match in the input, the input is returned unchanged, whatever the
locale renderer does; in particular `formatPDFDate "garbage" = "garbage"`. -/
theorem c9_formatPDFDate_fails_open :
    (∀ (rd : DateParts → String) (s : String),
      findPDFDate s.data = none → formatPDFDate rd s = s) ∧
    (∀ rd : DateParts → String, formatPDFDate rd "garbage" = "garbage") := by
  constructor
  · intro rd s h
    simp [formatPDFDate, h]
  · intro rd
    rfl

/-- C9 (witness): the fails-open theorem applied to the string
`"garbage"`. -/
theorem c9_witness : formatPDFDate rd0 "garbage" = "garbage" :=
  c9_formatPDFDate_fails_open.1 rd0 "garbage" rfl

/-- C10: the Password Prompt never submits an empty password — any password
handed to `onSubmit` by a dialog transition is non-empty, and while a
submission is in flight the submit action emits nothing. -/
theorem c10_dialog_never_submits_empty :
    (∀ (d : DialogState) (e : DialogEvent) (p : String),
      (dialogStep d e).2 = some p → p ≠ "") ∧
    (∀ d : DialogState, d.isSubmitting = true →
      (dialogStep d .submitClick).2 = none) := by
  constructor
  · intro d e p h
    cases e with
    | setPassword s => simp [dialogStep] at h
    | toggleShow => simp [dialogStep] at h
    | submitDone => simp [dialogStep] at h
    | submitClick =>
      by_cases he : submitEnabled d = true
      · simp [dialogStep, he] at h
        subst h
        intro hemp
        simp [submitEnabled, hemp] at he
      · simp [dialogStep, he] at h
  · intro d hd
    simp [dialogStep, submitEnabled, hd]

/-- C10 (witness): a concrete enabled submission emits a non-empty
password, and a concrete in-flight dialog emits nothing. -/
theorem c10_witness :
    ("secret" : String) ≠ "" ∧
    (dialogStep { password := "", showPassword := false, isSubmitting := true }
      .submitClick).2 = none :=
  ⟨c10_dialog_never_submits_empty.1
      { password := "secret", showPassword := false, isSubmitting := false }
      .submitClick "secret" rfl,
   c10_dialog_never_submits_empty.2
      { password := "", showPassword := false, isSubmitting := true } rfl⟩

/-- C7: `formatFileSize 0 = "0 Bytes"`; `formatFileSize 1536 = "1.5 KB"`;
`formatFileSize 1048576 = "1 MB"`; and for every positive byte count in the
designed range the selected unit index is exactly the floor of the base-1024
logarithm (characterised by `1024 ^ i ≤ bytes < 1024 ^ (i + 1)`) and the
output is the 2-decimal-formatted scaled value followed by that unit. -/
theorem c7_formatFileSize :
    formatFileSize 0 = "0 Bytes" ∧
    formatFileSize 1536 = "1.5 KB" ∧
    formatFileSize 1048576 = "1 MB" ∧
    ∀ bytes : Nat, 0 < bytes → bytes < 1024 ^ 4 →
      1024 ^ sizeIndex bytes ≤ bytes ∧ bytes < 1024 ^ (sizeIndex bytes + 1) ∧
      formatFileSize bytes = toFixed2Trim bytes (1024 ^ sizeIndex bytes) ++ " " ++
        (["Bytes", "KB", "MB", "GB"].getD (sizeIndex bytes) "undefined") := by
  refine ⟨rfl, ?_, ?_, ?_⟩
  · have h : sizeIndex 1536 = 1 :=
      Nat.log_eq_of_pow_le_of_lt_pow (by norm_num) (by norm_num)
    simp only [formatFileSize, h]
    decide
  · have h : sizeIndex 1048576 = 2 :=
      Nat.log_eq_of_pow_le_of_lt_pow (by norm_num) (by norm_num)
    simp only [formatFileSize, h]
    decide
  · intro bytes hb _hb4
    refine ⟨Nat.pow_log_le_self 1024 hb.ne', Nat.lt_pow_succ_log_self (by norm_num) bytes, ?_⟩
    simp [formatFileSize, hb.ne']

/-- C7 (witness): the general clause applied to `bytes = 2048`. -/
theorem c7_witness :
    1024 ^ sizeIndex 2048 ≤ 2048 ∧ 2048 < 1024 ^ (sizeIndex 2048 + 1) ∧
    formatFileSize 2048 = toFixed2Trim 2048 (1024 ^ sizeIndex 2048) ++ " " ++
      (["Bytes", "KB", "MB", "GB"].getD (sizeIndex 2048) "undefined") :=
  c7_formatFileSize.2.2.2 2048 (by norm_num) (by norm_num)

/-- C8: for every `1 ≤ bytes < 1024 ^ 4` the computed index is a valid
index into the four-entry unit table (and names a real unit), while for
every `bytes ≥ 1024 ^ 4` the index lies past the end of the table and the
rendered unit is the string `"undefined"`. -/
theorem c8_unit_table_bounds :
    (∀ bytes : Nat, 1 ≤ bytes → bytes < 1024 ^ 4 →
      sizeIndex bytes < 4 ∧
      (["Bytes", "KB", "MB", "GB"].getD (sizeIndex bytes) "undefined") ≠ "undefined") ∧
    (∀ bytes : Nat, 1024 ^ 4 ≤ bytes →
      4 ≤ sizeIndex bytes ∧
      formatFileSize bytes = toFixed2Trim bytes (1024 ^ sizeIndex bytes) ++ " " ++ "undefined") := by
  have hunits : ∀ i : Nat, i < 4 →
      (["Bytes", "KB", "MB", "GB"].getD i "undefined") ≠ "undefined" := by decide
  constructor
  · intro bytes hb hb4
    have hi : sizeIndex bytes < 4 :=
      (Nat.lt_pow_iff_log_lt (by norm_num) (by omega)).mp hb4
    exact ⟨hi, hunits _ hi⟩
  · intro bytes hb
    have hb0 : bytes ≠ 0 := by
      have : (0:Nat) < 1024 ^ 4 := by norm_num
      omega
    have hi : 4 ≤ sizeIndex bytes :=
      (Nat.pow_le_iff_le_log (by norm_num) hb0).mp hb
    refine ⟨hi, ?_⟩
    have hd : (["Bytes", "KB", "MB", "GB"].getD (sizeIndex bytes) "undefined") = "undefined" :=
      List.getD_eq_default _ _ (by simpa using hi)
    simp only [formatFileSize, if_neg hb0]
    rw [hd]

/-- C8 (witness): both clauses applied to concrete byte counts `500` and
`1024 ^ 4`. -/
theorem c8_witness :
    (sizeIndex 500 < 4 ∧
      (["Bytes", "KB", "MB", "GB"].getD (sizeIndex 500) "undefined") ≠ "undefined") ∧
    (4 ≤ sizeIndex (1024 ^ 4) ∧
      formatFileSize (1024 ^ 4) =
        toFixed2Trim (1024 ^ 4) (1024 ^ sizeIndex (1024 ^ 4)) ++ " " ++ "undefined") :=
  ⟨c8_unit_table_bounds.1 500 (by norm_num) (by norm_num),
   c8_unit_table_bounds.2 (1024 ^ 4) (le_refl _)⟩

/-- C4: in every reachable viewer state, a pending file is stored
(`currentFile` set) if and only if the password dialog is shown, and every
operation — any run of `extractMetadata` and cancelling the dialog —
preserves this equivalence. -/
theorem c4_pending_iff_dialog (rd : DateParts → String) (st : ViewerState)
    (h : Reachable rd st) : st.currentFile.isSome = st.showPasswordDialog := by
  induction h with
  | init => rfl
  | extract file pw readR libR _h ih =>
    cases readR with
    | failure msg =>
      by_cases hp : passwordTruthy pw = true <;>
        simp [extractMetadata, hp, ih]
    | ok =>
      by_cases hp : passwordTruthy pw = true
      · cases libR with
        | success info n => simp [extractMetadata, hp]
        | passwordError => simp [extractMetadata, hp, ih]
        | otherError m => simp [extractMetadata, hp, ih]
      · by_cases hinc : includes file.bytes "/Encrypt" = true
        · simp [extractMetadata, hp, hinc]
        · cases libR with
          | success info n => simp [extractMetadata, hp, hinc]
          | passwordError => simp [extractMetadata, hp, hinc, ih]
          | otherError m => simp [extractMetadata, hp, hinc, ih]
  | cancel _h ih => rfl

/-- C4 (witness): the invariant instantiated at the initial state. -/
theorem c4_witness : initialState.currentFile.isSome = initialState.showPasswordDialog :=
  c4_pending_iff_dialog rd0 initialState Reachable.init

/-- The state reached by a successful extraction of `filePlain` followed by
dropping the encrypted `fileEnc` with no password. -/
def c1BadState : ViewerState :=
  extractMetadata rd0
    (extractMetadata rd0 initialState filePlain none .ok (.success [] 1))
    fileEnc none .ok (.success [] 1)

/-- C1 (counterexample): a reachable state in which a file is pending a
password (`currentFile` set, dialog shown) while an `ExtractionResult` is
still present — `extractMetadata` never clears `metadata` when a new file
becomes pending, so the result of an earlier successful extraction
survives into the awaiting-password state. -/
theorem c1_counterexample :
    Reachable rd0 c1BadState ∧
    c1BadState.currentFile = some fileEnc ∧
    c1BadState.showPasswordDialog = true ∧
    c1BadState.metadata.isSome = true := by
  refine ⟨?_, rfl, rfl, rfl⟩
  exact Reachable.extract fileEnc none .ok (.success [] 1)
    (Reachable.extract filePlain none .ok (.success [] 1) Reachable.init)

/-- C1 (amended): the invariant holds only before any extraction succeeds —
in every state reachable while the parsing library never reports success,
no `ExtractionResult` is present at all, in particular none while a file is
pending a password. -/
theorem c1_no_result_without_success (rd : DateParts → String)
    (st : ViewerState) (h : ReachableNS rd st) :
    st.metadata = none ∧ (st.currentFile.isSome = true → st.metadata = none) := by
  have key : st.metadata = none := by
    induction h with
    | init => rfl
    | extract file pw readR libR hns _h ih =>
      cases readR with
      | failure msg =>
        by_cases hp : passwordTruthy pw = true <;>
          simp [extractMetadata, hp, ih]
      | ok =>
        by_cases hp : passwordTruthy pw = true
        · cases libR with
          | success info n => simp [isSuccess] at hns
          | passwordError => simp [extractMetadata, hp, ih]
          | otherError m => simp [extractMetadata, hp, ih]
        · by_cases hinc : includes file.bytes "/Encrypt" = true
          · simp [extractMetadata, hp, hinc, ih]
          · cases libR with
            | success info n => simp [isSuccess] at hns
            | passwordError => simp [extractMetadata, hp, hinc, ih]
            | otherError m => simp [extractMetadata, hp, hinc, ih]
    | cancel _h ih => simp [cancelDialog, ih]
  exact ⟨key, fun _ => key⟩

/-- C1 (witness): the amended theorem instantiated at the initial state. -/
theorem c1_witness :
    initialState.metadata = none ∧
    (initialState.currentFile.isSome = true → initialState.metadata = none) :=
  c1_no_result_without_success rd0 initialState ReachableNS.init

/-- C2: on a file whose decoded bytes contain `/Encrypt`, extraction with
no password (from a state with no prompt error and attempt counter 0)
enters the awaiting-password state — the file stored as pending, the
dialog shown, both error slots empty, attempts still 0 — and then
submitting one wrong password sets the prompt error to exactly
`"Invalid password. Please try again."`, increments the attempt counter
from 0 to 1, and leaves the pending file unchanged. -/
theorem c2_encrypted_prompt_then_wrong_password (rd : DateParts → String)
    (st st1 st2 : ViewerState) (file : FileModel) (libR : LibResult) (pw : String)
    (hEnc : includes file.bytes "/Encrypt" = true)
    (hpe : st.passwordError = none) (hatt : st.attempts = 0) (hpw : pw ≠ "")
    (h1 : st1 = extractMetadata rd st file none .ok libR)
    (h2 : st2 = extractMetadata rd st1 file (some pw) .ok .passwordError) :
    st1.currentFile = some file ∧ st1.showPasswordDialog = true ∧
    st1.passwordError = none ∧ st1.error = none ∧ st1.attempts = 0 ∧
    st2.passwordError = some "Invalid password. Please try again." ∧
    st2.attempts = 1 ∧ st2.currentFile = some file := by
  have hptr : passwordTruthy (some pw) = true := by
    simp [passwordTruthy, hpw]
  have hpn : passwordTruthy (none : Option String) = false := rfl
  subst h1 h2
  simp [extractMetadata, hEnc, hptr, hpn, hpe, hatt]

/-- C2 (witness): the scenario run concretely on `fileEnc` from the
initial state with the wrong password `"wrong"`. -/
theorem c2_witness :
    (extractMetadata rd0 initialState fileEnc none .ok .passwordError).currentFile = some fileEnc ∧
    (extractMetadata rd0 initialState fileEnc none .ok .passwordError).showPasswordDialog = true ∧
    (extractMetadata rd0 initialState fileEnc none .ok .passwordError).passwordError = none ∧
    (extractMetadata rd0 initialState fileEnc none .ok .passwordError).error = none ∧
    (extractMetadata rd0 initialState fileEnc none .ok .passwordError).attempts = 0 ∧
    (extractMetadata rd0 (extractMetadata rd0 initialState fileEnc none .ok .passwordError)
      fileEnc (some "wrong") .ok .passwordError).passwordError =
        some "Invalid password. Please try again." ∧
    (extractMetadata rd0 (extractMetadata rd0 initialState fileEnc none .ok .passwordError)
      fileEnc (some "wrong") .ok .passwordError).attempts = 1 ∧
    (extractMetadata rd0 (extractMetadata rd0 initialState fileEnc none .ok .passwordError)
      fileEnc (some "wrong") .ok .passwordError).currentFile = some fileEnc :=
  c2_encrypted_prompt_then_wrong_password rd0 initialState _ _ fileEnc .passwordError "wrong"
    (by decide) rfl rfl (by decide) rfl rfl

/-- C3 (counterexample): three concrete runs refute the claim as stated.
First, a non-password parsing failure with no password does not surface as
`"Error processing PDF: <library message>"` — the inner throw is wrapped a
second time by the outer catch, so the top-level panel shows
`"Error processing file: Error processing PDF: <library message>"`.
Second, a read failure with a password supplied produces no top-level
message at all (so not "every read failure" produces one): the raw message
goes to the password prompt's error.  Third, likewise a parsing failure
with a password supplied leaves the top-level panel empty and routes the
wrapped message to the prompt's error. -/
theorem c3_counterexample :
    ((extractMetadata rd0 initialState filePlain none .ok
        (.otherError (some "bad xref"))).error =
          some "Error processing file: Error processing PDF: bad xref" ∧
      (extractMetadata rd0 initialState filePlain none .ok
        (.otherError (some "bad xref"))).error ≠
          some "Error processing PDF: bad xref") ∧
    ((extractMetadata rd0 initialState fileEnc (some "pw")
        (.failure "disk error") (.success [] 1)).error = none ∧
      (extractMetadata rd0 initialState fileEnc (some "pw")
        (.failure "disk error") (.success [] 1)).passwordError = some "disk error") ∧
    ((extractMetadata rd0 initialState fileEnc (some "pw") .ok
        (.otherError (some "boom"))).error = none ∧
      (extractMetadata rd0 initialState fileEnc (some "pw") .ok
        (.otherError (some "boom"))).passwordError =
          some "Error processing PDF: boom") := by
  refine ⟨⟨?_, ?_⟩, ⟨?_, ?_⟩, ⟨?_, ?_⟩⟩ <;> decide

/-- C3 (amended): the terminal error productions of `extractMetadata`.
A read failure with no password supplied sets the top-level message
`"Error processing file: <message>"`; a read failure with a password
supplied leaves the top-level error empty and sets the prompt error to the
raw message.  A non-password parsing failure with no password supplied (on
a file not routed to the password prompt) sets the doubly wrapped
top-level message
`"Error processing file: Error processing PDF: <library message>"`; with a
password supplied it leaves the top-level error empty and sets the prompt
error to `"Error processing PDF: <library message>"`.  The recoverable
password outcomes (a library `PasswordException`, and the encrypted
no-password prompt) always leave the top-level error empty; and no run
ever puts anything else in the top-level panel. -/
theorem c3_terminal_error_production (rd : DateParts → String)
    (st st' : ViewerState) (file : FileModel) (pw : Option String)
    (readR : ReadResult) (libR : LibResult)
    (h : st' = extractMetadata rd st file pw readR libR) :
    (∀ m, readR = .failure m → passwordTruthy pw = false →
      st'.error = some ("Error processing file: " ++ m)) ∧
    (∀ m, readR = .failure m → passwordTruthy pw = true →
      st'.error = none ∧ st'.passwordError = some m) ∧
    (∀ m, readR = .ok → libR = .otherError m → passwordTruthy pw = false →
      includes file.bytes "/Encrypt" = false →
      st'.error = some ("Error processing file: Error processing PDF: " ++ msgOrUnknown m)) ∧
    (∀ m, readR = .ok → libR = .otherError m → passwordTruthy pw = true →
      st'.error = none ∧
      st'.passwordError = some ("Error processing PDF: " ++ msgOrUnknown m)) ∧
    (readR = .ok → libR = .passwordError → st'.error = none) ∧
    (readR = .ok → includes file.bytes "/Encrypt" = true → passwordTruthy pw = false →
      st'.error = none) ∧
    (st'.error = none ∨
      (∃ m, readR = .failure m ∧
        st'.error = some ("Error processing file: " ++ m)) ∨
      (∃ m, libR = .otherError m ∧
        st'.error = some ("Error processing file: Error processing PDF: " ++ msgOrUnknown m))) := by
  subst h
  refine ⟨?_, ?_, ?_, ?_, ?_, ?_, ?_⟩
  · rintro m rfl hp
    simp [extractMetadata, hp]
  · rintro m rfl hp
    simp [extractMetadata, hp]
  · rintro m rfl rfl hp hinc
    simp [extractMetadata, hp, hinc]
  · rintro m rfl rfl hp
    simp [extractMetadata, hp]
  · rintro rfl rfl
    by_cases hp : passwordTruthy pw = true
    · simp [extractMetadata, hp]
    · by_cases hinc : includes file.bytes "/Encrypt" = true <;>
        simp [extractMetadata, hp, hinc]
  · rintro rfl hinc hp
    simp [extractMetadata, hp, hinc]
  · cases readR with
    | failure msg =>
      by_cases hp : passwordTruthy pw = true <;> simp [extractMetadata, hp]
    | ok =>
      by_cases hp : passwordTruthy pw = true
      · cases libR with
        | success info n => simp [extractMetadata, hp]
        | passwordError => simp [extractMetadata, hp]
        | otherError m => simp [extractMetadata, hp]
      · by_cases hinc : includes file.bytes "/Encrypt" = true
        · simp [extractMetadata, hp, hinc]
        · cases libR with
          | success info n => simp [extractMetadata, hp, hinc]
          | passwordError => simp [extractMetadata, hp, hinc]
          | otherError m => simp [extractMetadata, hp, hinc]

/-- C3 (witness): the production clauses exercised concretely — a
no-password read failure sets the top-level read message, a no-password
parse failure sets the doubly wrapped top-level message, and a parse
failure with a password routes its message to the prompt error with the
top-level panel empty. -/
theorem c3_witness :
    (extractMetadata rd0 initialState filePlain none
      (.failure "disk error") (.success [] 1)).error =
        some "Error processing file: disk error" ∧
    (extractMetadata rd0 initialState filePlain none .ok
      (.otherError (some "boom"))).error =
        some "Error processing file: Error processing PDF: boom" ∧
    (extractMetadata rd0 initialState fileEnc (some "pw") .ok
      (.otherError (some "boom"))).error = none ∧
    (extractMetadata rd0 initialState fileEnc (some "pw") .ok
      (.otherError (some "boom"))).passwordError =
        some "Error processing PDF: boom" :=
  ⟨(c3_terminal_error_production rd0 initialState _ filePlain none
      (.failure "disk error") (.success [] 1) rfl).1 "disk error" rfl rfl,
   (c3_terminal_error_production rd0 initialState _ filePlain none .ok
      (.otherError (some "boom")) rfl).2.2.1 (some "boom") rfl rfl rfl (by decide),
   ((c3_terminal_error_production rd0 initialState _ fileEnc (some "pw") .ok
      (.otherError (some "boom")) rfl).2.2.2.1 (some "boom") rfl rfl (by decide)).1,
   ((c3_terminal_error_production rd0 initialState _ fileEnc (some "pw") .ok
      (.otherError (some "boom")) rfl).2.2.2.1 (some "boom") rfl rfl (by decide)).2⟩

/-- C6: on every run of `extractMetadata` that reaches a successful parse,
the "Security Status" entry reads encrypted iff the decoded bytes contain
`/Encrypt` (otherwise not encrypted) and the "Accessibility" entry reads
tagged iff the bytes contain `/MarkInfo` — both computed from the byte
heuristic alone, whatever password (if any) was supplied and whatever the
library's info entries were. -/
theorem c6_security_and_accessibility (rd : DateParts → String)
    (st : ViewerState) (file : FileModel) (pw : Option String)
    (info : List (String × String)) (n : Nat)
    (h : passwordTruthy pw = true ∨ includes file.bytes "/Encrypt" = false) :
    ∃ m, (extractMetadata rd st file pw .ok (.success info n)).metadata = some m ∧
      getKey m.infoDict "Security Status" =
        some (if includes file.bytes "/Encrypt"
              then "Encrypted (this PDF has security restrictions)"
              else "Not Encrypted (this PDF has no security restrictions)") ∧
      getKey m.infoDict "Accessibility" =
        some (if includes file.bytes "/MarkInfo"
              then "Tagged PDF (accessible for screen readers)"
              else "Not Tagged (limited accessibility support)") := by
  have hcond : (includes file.bytes "/Encrypt" && !passwordTruthy pw) = false := by
    rcases h with h | h <;> simp [h]
  refine ⟨successMetadata rd file info n, ?_, ?_, ?_⟩
  · simp [extractMetadata, hcond]
  · show getKey (successMetadata rd file info n).infoDict "Security Status" = _
    simp only [successMetadata, buildInfoDict]
    rw [getKey_setKey_ne _ _ _ _ (by decide), getKey_setKey_self]
  · show getKey (successMetadata rd file info n).infoDict "Accessibility" = _
    simp only [successMetadata, buildInfoDict]
    rw [getKey_setKey_self]

/-- C6 (witness): a successful extraction of `fileBoth` (bytes contain
both markers) with a password supplied. -/
theorem c6_witness :
    ∃ m, (extractMetadata rd0 initialState fileBoth (some "pw") .ok
        (.success [] 2)).metadata = some m ∧
      getKey m.infoDict "Security Status" =
        some (if includes fileBoth.bytes "/Encrypt"
              then "Encrypted (this PDF has security restrictions)"
              else "Not Encrypted (this PDF has no security restrictions)") ∧
      getKey m.infoDict "Accessibility" =
        some (if includes fileBoth.bytes "/MarkInfo"
              then "Tagged PDF (accessible for screen readers)"
              else "Not Tagged (limited accessibility support)") :=
  c6_security_and_accessibility rd0 initialState fileBoth (some "pw") [] 2
    (Or.inl (by decide))

end PDFMetadataViewer
